import Mathlib

/-!
Verification of the toro-ai-assistant question-answering workflow.

This file is a shallow embedding of the repository's handlers and adapters:

* `lib/models/question.py` / `lib/core/validation.py` — request and event validation
* `lib/adapters/dynamodb_client.py` — keyed store operations on question items
* `lib/adapters/bedrock_client.py` — retrieval-and-generation response parsing
* `src/questions/ingest/handler.py` — ingest handler
* `src/questions/process/handler.py` — process handler
* `src/questions/notify/handler.py` — notify handler
* `src/websocket/handler.py` — connection registry handler

External services (the store transport, the pub/sub topics, the generation
call, the WebSocket push) are modelled by explicit outcome parameters: each
call site receives an `Option String` (`some msg` = the call raised an
exception with text `msg`) or an `Except String` result.  Store state is an
association list keyed by the composite partition/sort key, and published
events / push attempts are returned as explicit traces.
-/

namespace Toro

/-! ## String helpers mirroring Python primitives -/

/-- Whitespace characters removed by Python `str.strip()` (ASCII subset). -/
def isPyWs (c : Char) : Bool :=
  c == ' ' || c == '\t' || c == '\n' || c == '\r' || c == '\x0b' || c == '\x0c'

/-- Python `str.strip()`: drop whitespace from both ends. -/
def pyStrip (s : String) : String :=
  String.mk (((s.data.dropWhile isPyWs).reverse.dropWhile isPyWs).reverse)

/-- Substring occurrence test on character lists. -/
def hasSubstring (pat : List Char) : List Char → Bool
  | [] => pat.isEmpty
  | c :: rest => pat.isPrefixOf (c :: rest) || hasSubstring pat rest

/-- Python `"GoneException" in str(e)` substring test. -/
def containsGone (s : String) : Bool :=
  hasSubstring "GoneException".data s.data

/-! ## Constants (`lib/core/constants.py`) -/

def STATUS_PENDING : String := "pending"
def STATUS_PROCESSING : String := "processing"
def STATUS_COMPLETED : String := "completed"
def STATUS_ERROR : String := "error"

/-- Status strings accepted by the `QuestionStatus` enum. -/
def statusStrings : List String :=
  [STATUS_PENDING, STATUS_PROCESSING, STATUS_COMPLETED, STATUS_ERROR]

/-! ## Data model (`lib/models/question.py`, DynamoDB item shape) -/

/-- Notification metadata written by the notify handler
(`notification_details` sub-document). -/
structure NotifDetails where
  realtime_sent : Bool
  notification_time : String
deriving DecidableEq

/-- A question item as stored in DynamoDB.  Every attribute is optional:
`none` means the attribute is absent from the item.  The composite key
(`PK`/`SK`) is the association-list key and is not repeated here. -/
structure Item where
  user_id : Option String := none
  question_id : Option String := none
  question : Option String := none
  status : Option String := none
  answer : Option String := none
  sources : Option (List String) := none
  inference_model : Option String := none
  found_relevant_docs : Option Bool := none
  error_message : Option String := none
  created_at : Option String := none
  updated_at : Option String := none
  processing_started_at : Option String := none
  processed_at : Option String := none
  notification_sent : Option Bool := none
  notification_details : Option NotifDetails := none
deriving DecidableEq

/-- An item with no attributes, the base of a DynamoDB `update_item` upsert. -/
def emptyItem : Item := {}

/-- A partial-update dictionary for `DynamoDBClient.update_question`:
`some v` means the attribute is in the update dict (written with `SET`),
`none` means it is not mentioned and keeps its stored value. -/
structure UpdateData where
  status : Option String := none
  answer : Option String := none
  sources : Option (List String) := none
  inference_model : Option String := none
  found_relevant_docs : Option Bool := none
  error_message : Option String := none
  updated_at : Option String := none
  processing_started_at : Option String := none
  processed_at : Option String := none
  notification_sent : Option Bool := none
  notification_details : Option NotifDetails := none
deriving DecidableEq

/-- DynamoDB `SET` semantics for one attribute: the update value when
supplied, otherwise the stored value. -/
def setOr {α : Type} (upd old : Option α) : Option α :=
  match upd with
  | some v => some v
  | none => old

/-- Apply an update dictionary to a stored item, attribute by attribute. -/
def applyUpdate (old : Item) (u : UpdateData) : Item :=
  { user_id := old.user_id
    question_id := old.question_id
    question := old.question
    status := setOr u.status old.status
    answer := setOr u.answer old.answer
    sources := setOr u.sources old.sources
    inference_model := setOr u.inference_model old.inference_model
    found_relevant_docs := setOr u.found_relevant_docs old.found_relevant_docs
    error_message := setOr u.error_message old.error_message
    created_at := old.created_at
    updated_at := setOr u.updated_at old.updated_at
    processing_started_at := setOr u.processing_started_at old.processing_started_at
    processed_at := setOr u.processed_at old.processed_at
    notification_sent := setOr u.notification_sent old.notification_sent
    notification_details := setOr u.notification_details old.notification_details }

/-! ## Keyed store (`lib/adapters/dynamodb_client.py`) -/

/-- Composite primary key, `DynamoDBClient._build_key`. -/
def buildKey (user_id question_id : String) : String × String :=
  ("USER#" ++ user_id, "QUESTION#" ++ question_id)

/-- The questions table: an association list from composite key to item. -/
abbrev QStore : Type := List ((String × String) × Item)

/-- Point lookup (`get_item`): first entry with the given key. -/
def getItem : QStore → String × String → Option Item
  | [], _ => none
  | (k', it) :: rest, k => if k' = k then some it else getItem rest k

/-- Write an item (`put_item`): replace the entry with the key, or add it. -/
def putItem : QStore → String × String → Item → QStore
  | [], k, it => [(k, it)]
  | (k', it') :: rest, k, it =>
      if k' = k then (k, it) :: rest else (k', it') :: putItem rest k it

/-- `DynamoDBClient._save_question_internal`: fresh pending item. -/
def savedQuestionItem (user_id question_id question_text ts : String) : Item :=
  { user_id := some user_id
    question_id := some question_id
    question := some question_text
    status := some STATUS_PENDING
    created_at := some ts
    updated_at := some ts }

/-- `DynamoDBClient.save_question` effect on the store. -/
def saveQuestion (st : QStore) (user_id question_id question_text ts : String) : QStore :=
  putItem st (buildKey user_id question_id)
    (savedQuestionItem user_id question_id question_text ts)

/-- `DynamoDBClient._update_question_internal`: stamps `updated_at` with the
client's own timestamp, then applies the update dict with upsert semantics
(an absent item is created from the supplied attributes alone). -/
def updateQuestion (st : QStore) (user_id question_id : String)
    (u : UpdateData) (ts : String) : QStore :=
  let u' : UpdateData := { u with updated_at := some ts }
  let k := buildKey user_id question_id
  let old := (getItem st k).getD emptyItem
  putItem st k (applyUpdate old u')

/-! ## Connection registry store -/

/-- The connections table: `user_id -> connection_id`, one entry per user. -/
abbrev ConnStore : Type := List (String × String)

/-- Connection lookup by `user_id`. -/
def lookupConn : ConnStore → String → Option String
  | [], _ => none
  | (u, c) :: rest, uid => if u = uid then some c else lookupConn rest uid

/-- Upsert a connection record (`put_item` keyed by `user_id`). -/
def putConn : ConnStore → String → String → ConnStore
  | [], uid, cid => [(uid, cid)]
  | (u, c) :: rest, uid, cid =>
      if u = uid then (uid, cid) :: rest else (u, c) :: putConn rest uid cid

/-- Delete the connection record for a user (`delete_item`). -/
def deleteConn (cst : ConnStore) (uid : String) : ConnStore :=
  cst.filter (fun p => !(p.1 == uid))

/-! ## Generation adapter (`lib/adapters/bedrock_client.py`) -/

/-- One extracted source: document URI and excerpt text. -/
structure SourceEntry where
  document_id : String
  excerpt : String
deriving DecidableEq

/-- The `retrievedReferences` field of one citation in the raw service
response.  The upstream shape varies: it may be a single object, a list of
objects (non-object elements are skipped), or something else entirely.
`uri` and `text` are the values of the nested
`location.s3Location.uri` / `content.text` lookups, defaulting to `""`
when the nested keys are absent. -/
inductive RetrievedRefs where
  | dictShape (uri text : String)
  | listShape (refs : List (Option (String × String)))
  | otherShape
deriving DecidableEq

/-- Source extraction for one citation, mirroring the loop body in
`BedrockClient.retrieve_and_generate`: a reference contributes a source
exactly when its URI is non-empty (Python `if uri:`). -/
def extractFromCite : RetrievedRefs → List SourceEntry
  | .dictShape uri text => if uri = "" then [] else [⟨uri, text⟩]
  | .listShape refs =>
      refs.foldr
        (fun r acc =>
          match r with
          | some (uri, text) => (if uri = "" then [] else [⟨uri, text⟩]) ++ acc
          | none => acc)
        []
  | .otherShape => []

/-- Source extraction over all citations of a raw response. -/
def extractSources : List RetrievedRefs → List SourceEntry
  | [] => []
  | c :: rest => extractFromCite c ++ extractSources rest

/-- Raw response of the opaque retrieval-and-generation call:
`output.text` plus the citation metadata. -/
structure RawResponse where
  outputText : String
  citations : List RetrievedRefs
deriving DecidableEq

/-- Normalized result returned by `BedrockClient.retrieve_and_generate`. -/
structure RagResult where
  answer : String
  sources : List SourceEntry
  inference_profile_id : String
  found_relevant_docs : Bool
deriving DecidableEq

/-- `BedrockClient._get_inference_profile_arn`: pass fully-qualified ARNs
through; otherwise resolve via the account identifier, failing when it is
missing.  Python `profile_id.startswith("arn:")`. -/
def getInferenceProfileArn (profile_id : String) (account : Option String)
    (region : String) : Except String String :=
  if "arn:".data.isPrefixOf profile_id.data then .ok profile_id
  else
    match account with
    | none => .error "Environment variable AWS_ACCOUNT_ID is not set."
    | some a =>
        .ok ("arn:aws:bedrock:" ++ region ++ ":" ++ a ++ ":inference-profile/" ++ profile_id)

/-- `BedrockClient.retrieve_and_generate`.  `call` is the outcome of the
opaque service round trip; it is only consulted when configuration checks
pass.  Python falsiness of `self.knowledge_base_id` treats both `None` and
`""` as unconfigured. -/
def retrieveAndGenerate (knowledge_base_id : Option String)
    (inference_profile_id : String) (account : Option String) (region : String)
    (call : Except String RawResponse) : Except String RagResult :=
  match knowledge_base_id with
  | none => .error "Knowledge Base ID not configured. Set KNOWLEDGE_BASE_ID."
  | some kb =>
      if kb = "" then .error "Knowledge Base ID not configured. Set KNOWLEDGE_BASE_ID."
      else
        match getInferenceProfileArn inference_profile_id account region with
        | .error e => .error e
        | .ok _ =>
            match call with
            | .error e => .error e
            | .ok resp =>
                let sources := extractSources resp.citations
                .ok { answer := resp.outputText
                      sources := sources
                      inference_profile_id := inference_profile_id
                      found_relevant_docs := decide (0 < sources.length) }

/-! ## Validation (`lib/models/question.py`, `lib/core/validation.py`) -/

/-- The decoded request body handed to `QuestionRequest.model_validate`:
either an object with optional `user_id` / `question` string fields, or a
JSON value that is not an object at all. -/
inductive BodyShape where
  | dict (user_id question : Option String)
  | nonDict
deriving DecidableEq

/-- A validated question request (fields already stripped). -/
structure ValidRequest where
  user_id : String
  question : String
deriving DecidableEq

/-- `validate_question_input` backed by the `QuestionRequest` pydantic
model: both fields required, the `not_empty` validator rejects empty or
whitespace-only values and returns the stripped value, and `max_length`
then bounds the (already stripped) question at 2000 characters.  Pydantic
failures are caught and surfaced as an error value, never an exception. -/
def validateQuestionInput : BodyShape → Except String ValidRequest
  | .nonDict => .error "Input should be a valid dictionary"
  | .dict user? question? =>
      match user? with
      | none => .error "Field required: user_id"
      | some u =>
          if u = "" ∨ pyStrip u = "" then .error "Cannot be an empty string"
          else
            match question? with
            | none => .error "Field required: question"
            | some q =>
                if q = "" ∨ pyStrip q = "" then .error "Cannot be an empty string"
                else if 2000 < (pyStrip q).length then
                  .error "The question must be at most 2000 characters"
                else .ok ⟨pyStrip u, pyStrip q⟩

/-- A raw pub/sub message as a decoded dictionary: the keys the handlers
read (`user_id`, `question_id`, `status`) plus a possible `error` key,
`none` meaning the key is absent. -/
structure RawMsg where
  user_id : Option String := none
  question_id : Option String := none
  status : Option String := none
  err : Option String := none
deriving DecidableEq

/-- An inbound pub/sub event: either the bare message object, or a
transport envelope whose `Records[0].Sns.Message` is a JSON string that
decodes to the message or fails to parse. -/
inductive SnsEventShape where
  | bare (m : RawMsg)
  | wrapped (m : Except String RawMsg)

/-- `parse_sns_message` of the process handler
(`src/questions/process/handler.py`): unwrap the envelope if present; a
decode failure is returned as an error dictionary, not raised. -/
def parseSnsProcess : SnsEventShape → RawMsg
  | .bare m => m
  | .wrapped (.ok m) => m
  | .wrapped (.error e) => { err := some ("Error processing message: " ++ e) }

/-- A pub/sub event validated through the `SNSQuestionEvent` model:
identifiers stripped and non-empty, status an optional enum value. -/
structure ValidatedSnsEvent where
  user_id : String
  question_id : String
  status : Option String
deriving DecidableEq

/-- `SNSQuestionEvent.model_validate`: both identifiers required,
stripped, non-empty; `status` optional but must be one of the enum values
when present.  Extra keys are ignored. -/
def validateSnsEvent (m : RawMsg) : Except String ValidatedSnsEvent :=
  match m.user_id with
  | none => .error "Field required: user_id"
  | some u =>
      if u = "" ∨ pyStrip u = "" then .error "Cannot be an empty string"
      else
        match m.question_id with
        | none => .error "Field required: question_id"
        | some q =>
            if q = "" ∨ pyStrip q = "" then .error "Cannot be an empty string"
            else
              match m.status with
              | none => .ok ⟨pyStrip u, pyStrip q, none⟩
              | some s =>
                  if statusStrings.contains s then .ok ⟨pyStrip u, pyStrip q, some s⟩
                  else .error ("Input should be a valid QuestionStatus, got " ++ s)

/-- `parse_sns_message` of `lib/core/validation.py` (used by the notify
handler): unwrap, then validate through `SNSQuestionEvent`; any failure is
returned as an error value. -/
def parseSnsNotify : SnsEventShape → Except String ValidatedSnsEvent
  | .bare m => validateSnsEvent m
  | .wrapped (.ok m) => validateSnsEvent m
  | .wrapped (.error e) => .error e

/-! ## Responses -/

/-- `APISuccessResponse` / `APIErrorResponse` (`lib/models/api.py`). -/
inductive Resp (α : Type) where
  | success (data : α)
  | failure (error : String)
deriving DecidableEq

/-- A published pub/sub message `{user_id, question_id, status}`. -/
structure SNSMsg where
  user_id : String
  question_id : String
  status : String
deriving DecidableEq

/-! ## Ingest handler (`src/questions/ingest/handler.py`) -/

/-- An inbound API Gateway event: a `body` key holding a JSON string (whose
decoding may fail) or an already-decoded object, or no `body` key at all,
in which case the event itself is used as the body
(`lib/core/validation.py`, `parse_api_event`). -/
inductive IngestEvent where
  | withBody (b : Except String BodyShape)
  | noBody (b : BodyShape)

/-- `parse_api_event`: a `json.loads` failure propagates as an exception. -/
def parseApiEvent : IngestEvent → Except String BodyShape
  | .withBody b => b
  | .noBody b => .ok b

/-- Response payload data of a successful ingest. -/
structure IngestData where
  user_id : String
  question_id : String
  status : String
deriving DecidableEq

/-- An API Gateway response (`format_api_gateway_response`): status code
and JSON body.  The constant CORS headers are not modelled. -/
structure GWResp where
  statusCode : Nat
  body : Resp IngestData
deriving DecidableEq

/-- `format_api_gateway_response`: explicit status code when supplied,
otherwise 200 for a success body and 400 for an error body. -/
def formatApiGatewayResponse (body : Resp IngestData) (code : Option Nat) : GWResp :=
  match code with
  | some c => ⟨c, body⟩
  | none =>
      match body with
      | .success d => ⟨200, .success d⟩
      | .failure e => ⟨400, .failure e⟩

/-- External-call outcomes for one ingest invocation: the generated
`question_id`, the current timestamp, and whether the store write and the
process-topic publish raise (`some msg` = raised). -/
structure IngestEnv where
  freshId : String
  now : String
  saveFail : Option String := none
  publishFail : Option String := none

/-- Result of one ingest invocation: response, final store state, and the
process-events published. -/
structure IngestOut where
  resp : GWResp
  store : QStore
  events : List SNSMsg
deriving DecidableEq

/-- `lambda_handler` of the ingest handler: parse the body, validate,
create the pending entity, publish a process-event.  The whole body sits
inside the boundary `try`; any raised exception yields a generic 500. -/
def ingestHandler (ev : IngestEvent) (st : QStore) (env : IngestEnv) : IngestOut :=
  match parseApiEvent ev with
  | .error _ => ⟨formatApiGatewayResponse (.failure "Internal server error.") (some 500), st, []⟩
  | .ok body =>
      match validateQuestionInput body with
      | .error e => ⟨formatApiGatewayResponse (.failure e) (some 400), st, []⟩
      | .ok req =>
          match env.saveFail with
          | some _ =>
              ⟨formatApiGatewayResponse (.failure "Internal server error.") (some 500), st, []⟩
          | none =>
              let st' := saveQuestion st req.user_id env.freshId req.question env.now
              match env.publishFail with
              | some _ =>
                  ⟨formatApiGatewayResponse (.failure "Internal server error.") (some 500),
                    st', []⟩
              | none =>
                  ⟨formatApiGatewayResponse
                      (.success ⟨req.user_id, env.freshId, STATUS_PENDING⟩) none,
                    st', [⟨req.user_id, env.freshId, STATUS_PENDING⟩]⟩

/-! ## Process handler (`src/questions/process/handler.py`) -/

/-- `update_question_status`: status and `updated_at`, plus
`processing_started_at` when moving to processing and `processed_at` when
moving to completed. -/
def updateQuestionStatusDict (status ts : String) : UpdateData :=
  let base : UpdateData := { status := some status, updated_at := some ts }
  if status = STATUS_PROCESSING then { base with processing_started_at := some ts }
  else if status = STATUS_COMPLETED then { base with processed_at := some ts }
  else base

/-- Response payload data of a successful process invocation. -/
structure ProcData where
  user_id : String
  question_id : String
  status : String
  found_relevant_docs : Bool
deriving DecidableEq

/-- External-call outcomes for one process invocation: whether the entity
read and each write/publish raise, and the generation call's outcome. -/
structure ProcEnv where
  now : String
  getFail : Option String := none
  updProcFail : Option String := none
  gen : Except String RagResult
  updComplFail : Option String := none
  pubComplFail : Option String := none
  errUpdFail : Option String := none
  errPubFail : Option String := none

/-- Result of one process invocation: response, final store state, and the
notify-events published. -/
structure ProcOut where
  resp : Resp ProcData
  store : QStore
  notify : List SNSMsg
deriving DecidableEq

/-- The `except` branch of the process handler: re-resolve the identifiers
from the original event, best-effort mark the entity `error` and publish
an error notify-event (both swallowed on secondary failure), and return a
structured error carrying the failure's message. -/
def processExceptBranch (ev : SnsEventShape) (st : QStore) (evs : List SNSMsg)
    (env : ProcEnv) (emsg : String) : ProcOut :=
  let m := parseSnsProcess ev
  match m.user_id, m.question_id with
  | some uid, some qid =>
      if uid = "" ∨ qid = "" then ⟨.failure emsg, st, evs⟩
      else
        match env.errUpdFail with
        | some _ => ⟨.failure emsg, st, evs⟩
        | none =>
            let errDict : UpdateData :=
              { status := some STATUS_ERROR
                error_message := some emsg
                updated_at := some env.now }
            let st' := updateQuestion st uid qid errDict env.now
            match env.errPubFail with
            | some _ => ⟨.failure emsg, st', evs⟩
            | none => ⟨.failure emsg, st', evs ++ [⟨uid, qid, STATUS_ERROR⟩]⟩
  | _, _ => ⟨.failure emsg, st, evs⟩

/-- `lambda_handler` of the process handler: unwrap the event, look up the
entity, move it to processing, call the generation adapter, store the
completed result and publish a completed notify-event; any exception in
that flow falls into `processExceptBranch`. -/
def processHandler (ev : SnsEventShape) (st : QStore) (env : ProcEnv) : ProcOut :=
  let m := parseSnsProcess ev
  match m.err with
  | some e => ⟨.failure e, st, []⟩
  | none =>
      match m.user_id, m.question_id with
      | some uid, some qid =>
          if uid = "" ∨ qid = "" then
            ⟨.failure "Missing required fields: user_id and question_id are mandatory", st, []⟩
          else
            match env.getFail with
            | some e => processExceptBranch ev st [] env e
            | none =>
                match getItem st (buildKey uid qid) with
                | none =>
                    ⟨.failure ("Question not found: user_id=" ++ uid ++
                        ", question_id=" ++ qid), st, []⟩
                | some item =>
                    if item.question.getD "" = "" then
                      ⟨.failure "Question text not found in DynamoDB item", st, []⟩
                    else
                      match env.updProcFail with
                      | some e => processExceptBranch ev st [] env e
                      | none =>
                          let st1 := updateQuestion st uid qid
                            (updateQuestionStatusDict STATUS_PROCESSING env.now) env.now
                          match env.gen with
                          | .error e => processExceptBranch ev st1 [] env e
                          | .ok rag =>
                              let sourcesList := rag.sources.map
                                (fun s => s.document_id)
                              let complDict : UpdateData :=
                                { status := some STATUS_COMPLETED
                                  answer := some rag.answer
                                  sources := some sourcesList
                                  inference_model := some rag.inference_profile_id
                                  found_relevant_docs := some rag.found_relevant_docs
                                  processed_at := some env.now
                                  updated_at := some env.now }
                              match env.updComplFail with
                              | some e => processExceptBranch ev st1 [] env e
                              | none =>
                                  let st2 := updateQuestion st1 uid qid complDict env.now
                                  match env.pubComplFail with
                                  | some e => processExceptBranch ev st2 [] env e
                                  | none =>
                                      ⟨.success ⟨uid, qid, STATUS_COMPLETED,
                                          rag.found_relevant_docs⟩,
                                        st2, [⟨uid, qid, STATUS_COMPLETED⟩]⟩
      | _, _ =>
          ⟨.failure "Missing required fields: user_id and question_id are mandatory", st, []⟩

/-! ## Notify handler (`src/questions/notify/handler.py`) -/

/-- The WebSocket payload pushed to a connection: base fields always,
answer enrichment for completed, error message for errors. -/
structure Payload where
  ptype : String
  question_id : String
  status : String
  answer : Option String := none
  sources : Option (List String) := none
  question : Option String := none
  error_message : Option String := none
deriving DecidableEq

/-- One `post_to_connection` attempt. -/
structure Push where
  connection_id : String
  payload : Payload
deriving DecidableEq

/-- External-call outcomes for one notify invocation. -/
structure NotifyEnv where
  now : String
  getQFail : Option String := none
  connGetFail : Option String := none
  pushFail : Option String := none
  deleteFail : Option String := none
  updFail : Option String := none

/-- Payload construction inside `publish_notification_to_websocket`.
When the status is completed and entity data is present, enrich with
answer, sources and question; when the status is error, read
`error_message` from the entity data — if the entity lookup returned no
data this is `None.get(...)` and raises. -/
def buildPayload (qid status : String) (qdata : Option Item) : Except String Payload :=
  let base : Payload := { ptype := "question_update", question_id := qid, status := status }
  if status = STATUS_COMPLETED then
    match qdata with
    | some d =>
        .ok { base with
                answer := some (d.answer.getD "")
                sources := some (d.sources.getD [])
                question := some (d.question.getD "") }
    | none => .ok base
  else if status = STATUS_ERROR then
    match qdata with
    | none => .error "AttributeError: NoneType object has no attribute get"
    | some d => .ok { base with error_message := some (d.error_message.getD "Unknown error") }
  else .ok base

/-- The `except` branch of `publish_notification_to_websocket`: when the
failure text indicates a gone connection, best-effort delete the user's
connection record (a secondary failure is swallowed); in every case the
notification counts as not sent. -/
def publishExceptBranch (e : String) (uid : String) (cst : ConnStore)
    (pushes : List Push) (env : NotifyEnv) : Bool × ConnStore × List Push :=
  if containsGone e then
    match env.deleteFail with
    | some _ => (false, cst, pushes)
    | none => (false, deleteConn cst uid, pushes)
  else (false, cst, pushes)

/-- `publish_notification_to_websocket`: look up the user's live
connection, build the payload, push it; `true` only when the push
succeeded.  Everything is inside the function's own `try`, so no failure
escapes; the returned store and trace reflect the effects made before a
failure. -/
def publishNotificationToWebsocket (uid qid status : String) (qdata : Option Item)
    (cst : ConnStore) (env : NotifyEnv) : Bool × ConnStore × List Push :=
  match env.connGetFail with
  | some e => publishExceptBranch e uid cst [] env
  | none =>
      match lookupConn cst uid with
      | none => (false, cst, [])
      | some cid =>
          match buildPayload qid status qdata with
          | .error e => publishExceptBranch e uid cst [] env
          | .ok payload =>
              match env.pushFail with
              | some e => publishExceptBranch e uid cst [⟨cid, payload⟩] env
              | none => (true, cst, [⟨cid, payload⟩])

/-- Response payload data of a notify invocation
(`notification_details.realtime_sent` flattened in). -/
structure NotifyData where
  user_id : String
  question_id : String
  status : String
  notification_sent : Bool
  realtime_sent : Bool
deriving DecidableEq

/-- Result of one notify invocation: response, both stores, and the push
attempts made. -/
structure NotifyOut where
  resp : Resp NotifyData
  qstore : QStore
  cstore : ConnStore
  pushes : List Push
deriving DecidableEq

/-- `lambda_handler` of the notify handler: validate the event, default a
missing status to pending, re-fetch the entity, attempt the WebSocket
push, and record notification metadata on the entity only when the push
was sent.  The boundary catch-all returns a structured error carrying the
failure's message. -/
def notifyHandler (ev : SnsEventShape) (qst : QStore) (cst : ConnStore)
    (env : NotifyEnv) : NotifyOut :=
  match parseSnsNotify ev with
  | .error e => ⟨.failure e, qst, cst, []⟩
  | .ok v =>
      let uid := v.user_id
      let qid := v.question_id
      let status := v.status.getD STATUS_PENDING
      match env.getQFail with
      | some e => ⟨.failure e, qst, cst, []⟩
      | none =>
          let qdata := getItem qst (buildKey uid qid)
          match publishNotificationToWebsocket uid qid status qdata cst env with
          | (true, cst', pushes) =>
              match env.updFail with
              | some e => ⟨.failure e, qst, cst', pushes⟩
              | none =>
                  let upd : UpdateData :=
                    { notification_sent := some true
                      notification_details := some ⟨true, env.now⟩ }
                  let qst' := updateQuestion qst uid qid upd env.now
                  ⟨.success ⟨uid, qid, status, true, true⟩, qst', cst', pushes⟩
          | (false, cst', pushes) =>
              ⟨.success ⟨uid, qid, status, false, false⟩, qst, cst', pushes⟩

/-! ## Connection registry handler (`src/websocket/handler.py`) -/

/-- The `requestContext` object of a WebSocket event; either nested key may
be absent. -/
structure WsRequestContext where
  connectionId : Option String := none
  routeKey : Option String := none

/-- The decoded JSON body of a `register` message: decoding may fail, or
yield an object with an optional `user_id`. -/
inductive WsBody where
  | invalid
  | obj (user_id : Option String)

/-- An API Gateway WebSocket event. -/
structure WsEvent where
  requestContext : Option WsRequestContext := none
  queryUserId : Option String := none
  body : Option WsBody := none

/-- `get_body_user_id`: parse failures and non-object bodies are swallowed
and yield `None`. -/
def getBodyUserId (ev : WsEvent) : Option String :=
  match ev.body with
  | some (.obj u) => u
  | _ => none

/-- External-call outcomes for one connection-registry invocation. -/
structure WsEnv where
  putFail : Option String := none
  scanFail : Option String := none
  deleteFail : Option String := none

/-- A `{statusCode, body}` response of the connection registry handler. -/
structure WsResp where
  statusCode : Nat
  body : String
deriving DecidableEq

/-- Result of one connection-registry invocation. -/
structure WsOut where
  resp : WsResp
  cstore : ConnStore
deriving DecidableEq

/-- The routed part of the connection registry handler, i.e. the body of
its `try`: `$connect` upserts when a query `user_id` is present,
`$disconnect` deletes every record matching the closing connection id,
`register` upserts from the body's `user_id` (400 when absent), anything
else is 404.  A raised table operation is caught and echoed in a 500
response. -/
def wsRoute (routeKey connId : String) (ev : WsEvent) (cst : ConnStore)
    (env : WsEnv) : WsOut :=
  if routeKey = "$connect" then
    match ev.queryUserId with
    | some uid =>
        match env.putFail with
        | some e => ⟨⟨500, "Internal error: " ++ e⟩, cst⟩
        | none => ⟨⟨200, "Connected"⟩, putConn cst uid connId⟩
    | none => ⟨⟨200, "Connected"⟩, cst⟩
  else if routeKey = "$disconnect" then
    match env.scanFail with
    | some e => ⟨⟨500, "Internal error: " ++ e⟩, cst⟩
    | none =>
        if (cst.filter (fun p => p.2 == connId)).isEmpty then ⟨⟨200, "Disconnected"⟩, cst⟩
        else
          match env.deleteFail with
          | some e => ⟨⟨500, "Internal error: " ++ e⟩, cst⟩
          | none => ⟨⟨200, "Disconnected"⟩, cst.filter (fun p => !(p.2 == connId))⟩
  else if routeKey = "register" then
    match getBodyUserId ev with
    | none => ⟨⟨400, "user_id is required"⟩, cst⟩
    | some uid =>
        match env.putFail with
        | some e => ⟨⟨500, "Internal error: " ++ e⟩, cst⟩
        | none => ⟨⟨200, "User registered"⟩, putConn cst uid connId⟩
  else ⟨⟨404, "Route not implemented"⟩, cst⟩

/-- `lambda_handler` of the connection registry handler.  The connection
id and route key are read from the event BEFORE the `try` block: an event
missing them raises a `KeyError` that escapes the handler, modelled as the
`Except.error` result. -/
def wsHandler (ev : WsEvent) (cst : ConnStore) (env : WsEnv) : Except String WsOut :=
  match ev.requestContext with
  | none => .error "KeyError: requestContext"
  | some rc =>
      match rc.connectionId with
      | none => .error "KeyError: connectionId"
      | some connId =>
          match rc.routeKey with
          | none => .error "KeyError: routeKey"
          | some routeKey => .ok (wsRoute routeKey connId ev cst env)

/-! ## The answer/sources/error_message status invariant -/

/-- The spec's biconditional invariant on one stored item: `answer` and
`sources` present iff the status is completed, `error_message` present iff
the status is error. -/
def invIffB (it : Item) : Bool :=
  ((it.answer.isSome && it.sources.isSome) == (it.status == some STATUS_COMPLETED)) &&
  (it.error_message.isSome == (it.status == some STATUS_ERROR))

/-- The biconditional invariant over every entry of the questions table. -/
def storeInvIffB (st : QStore) : Bool :=
  st.all (fun p => invIffB p.2)

/-- The forward half of the invariant on one item: a completed status
guarantees `answer` and `sources`, an error status guarantees
`error_message` (presence may also persist from an earlier outcome). -/
def InvFwd (it : Item) : Prop :=
  (it.status = some STATUS_COMPLETED → it.answer.isSome ∧ it.sources.isSome) ∧
  (it.status = some STATUS_ERROR → it.error_message.isSome)

/-- The forward invariant over every entry of the questions table. -/
def StoreInvFwd (st : QStore) : Prop :=
  ∀ p ∈ st, InvFwd p.2

/-- An update dictionary that cannot break the forward invariant: whenever
it sets the status to completed (resp. error) it also supplies the
answer and sources (resp. the error message). -/
def updSafe (u : UpdateData) : Prop :=
  ∀ s, u.status = some s →
    (s = STATUS_COMPLETED → u.answer.isSome ∧ u.sources.isSome) ∧
    (s = STATUS_ERROR → u.error_message.isSome)

lemma setOr_isSome_mono {α : Type} {upd old : Option α} (h : old.isSome = true) :
    (setOr upd old).isSome = true := by
  cases upd <;> simp [setOr, h]

lemma setOr_isSome_left {α : Type} {upd old : Option α} (h : upd.isSome = true) :
    (setOr upd old).isSome = true := by
  cases upd
  · simp at h
  · simp [setOr]

lemma mem_putItem {st : QStore} {k : String × String} {it : Item}
    {p : (String × String) × Item} (h : p ∈ putItem st k it) :
    p = (k, it) ∨ p ∈ st := by
  induction st with
  | nil => simpa [putItem] using h
  | cons hd tl ih =>
      obtain ⟨k', it'⟩ := hd
      by_cases hk : k' = k
      · simp only [putItem, if_pos hk, List.mem_cons] at h
        rcases h with h | h
        · exact .inl h
        · exact .inr (List.mem_cons_of_mem _ h)
      · simp only [putItem, if_neg hk, List.mem_cons] at h
        rcases h with h | h
        · exact .inr (h ▸ List.mem_cons_self _ _)
        · rcases ih h with h2 | h2
          · exact .inl h2
          · exact .inr (List.mem_cons_of_mem _ h2)

lemma getItem_some_mem {st : QStore} {k : String × String} {it : Item}
    (h : getItem st k = some it) : (k, it) ∈ st := by
  induction st with
  | nil => simp [getItem] at h
  | cons hd tl ih =>
      obtain ⟨k', it'⟩ := hd
      by_cases hk : k' = k
      · simp only [getItem, if_pos hk] at h
        subst hk
        rw [Option.some.inj h]
        exact List.mem_cons_self _ _
      · simp only [getItem, if_neg hk] at h
        exact List.mem_cons_of_mem _ (ih h)

lemma storeInvFwd_putItem {st : QStore} {k : String × String} {it : Item}
    (hs : StoreInvFwd st) (hi : InvFwd it) : StoreInvFwd (putItem st k it) := by
  intro p hp
  rcases mem_putItem hp with h | h
  · rw [h]
    exact hi
  · exact hs p h

lemma invFwd_emptyItem : InvFwd emptyItem := by
  simp [InvFwd, emptyItem]

lemma applyUpdate_status (old : Item) (u : UpdateData) :
    (applyUpdate old u).status = setOr u.status old.status := rfl

lemma applyUpdate_answer (old : Item) (u : UpdateData) :
    (applyUpdate old u).answer = setOr u.answer old.answer := rfl

lemma applyUpdate_sources (old : Item) (u : UpdateData) :
    (applyUpdate old u).sources = setOr u.sources old.sources := rfl

lemma applyUpdate_error_message (old : Item) (u : UpdateData) :
    (applyUpdate old u).error_message = setOr u.error_message old.error_message := rfl

lemma invFwd_applyUpdate {old : Item} {u : UpdateData}
    (hold : InvFwd old) (hu : updSafe u) : InvFwd (applyUpdate old u) := by
  obtain ⟨hc, he⟩ := hold
  constructor
  · intro hs
    rw [applyUpdate_status] at hs
    rw [applyUpdate_answer, applyUpdate_sources]
    cases hval : u.status with
    | none =>
        rw [hval] at hs
        simp only [setOr] at hs
        exact ⟨setOr_isSome_mono (hc hs).1, setOr_isSome_mono (hc hs).2⟩
    | some s =>
        rw [hval] at hs
        simp only [setOr, Option.some.injEq] at hs
        subst hs
        obtain ⟨h1, h2⟩ := (hu _ hval).1 rfl
        exact ⟨setOr_isSome_left h1, setOr_isSome_left h2⟩
  · intro hs
    rw [applyUpdate_status] at hs
    rw [applyUpdate_error_message]
    cases hval : u.status with
    | none =>
        rw [hval] at hs
        simp only [setOr] at hs
        exact setOr_isSome_mono (he hs)
    | some s =>
        rw [hval] at hs
        simp only [setOr, Option.some.injEq] at hs
        subst hs
        exact setOr_isSome_left ((hu _ hval).2 rfl)

lemma storeInvFwd_updateQuestion {st : QStore} {uid qid : String}
    {u : UpdateData} {ts : String} (hs : StoreInvFwd st) (hu : updSafe u) :
    StoreInvFwd (updateQuestion st uid qid u ts) := by
  unfold updateQuestion
  apply storeInvFwd_putItem hs
  apply invFwd_applyUpdate _ (by exact hu)
  cases hg : getItem st (buildKey uid qid) with
  | none => simpa [hg] using invFwd_emptyItem
  | some it =>
      simpa [hg] using hs _ (getItem_some_mem hg)

lemma updSafe_of_status_eq {u : UpdateData} {t : String} (h : u.status = some t)
    (h1 : t = STATUS_COMPLETED → u.answer.isSome = true ∧ u.sources.isSome = true)
    (h2 : t = STATUS_ERROR → u.error_message.isSome = true) : updSafe u := by
  intro s hs
  rw [h] at hs
  cases Option.some.inj hs
  exact ⟨h1, h2⟩

lemma updSafe_of_status_none {u : UpdateData} (h : u.status = none) : updSafe u := by
  intro s hs
  rw [h] at hs
  cases hs

lemma updSafe_processingDict (ts : String) :
    updSafe (updateQuestionStatusDict STATUS_PROCESSING ts) :=
  updSafe_of_status_eq rfl
    (fun h => absurd h (by decide))
    (fun h => absurd h (by decide))

lemma invFwd_savedQuestionItem (uid qid q ts : String) :
    InvFwd (savedQuestionItem uid qid q ts) :=
  ⟨fun h => absurd (Option.some.inj h) (by decide),
   fun h => absurd (Option.some.inj h) (by decide)⟩

lemma storeInvFwd_exceptBranch {ev : SnsEventShape} {st : QStore}
    {evs : List SNSMsg} {env : ProcEnv} {e : String} (hs : StoreInvFwd st) :
    StoreInvFwd (processExceptBranch ev st evs env e).store := by
  unfold processExceptBranch
  dsimp only
  repeat' split
  all_goals
    first
      | exact hs
      | exact storeInvFwd_updateQuestion hs
          (updSafe_of_status_eq rfl (fun h => absurd h (by decide)) (fun _ => rfl))

lemma storeInvFwd_processHandler {ev : SnsEventShape} {st : QStore}
    {env : ProcEnv} (hs : StoreInvFwd st) :
    StoreInvFwd (processHandler ev st env).store := by
  have procSafe := updSafe_processingDict env.now
  unfold processHandler
  dsimp only
  repeat' split
  all_goals
    first
      | exact hs
      | exact storeInvFwd_exceptBranch hs
      | exact storeInvFwd_updateQuestion hs procSafe
      | exact storeInvFwd_exceptBranch (storeInvFwd_updateQuestion hs procSafe)
      | exact storeInvFwd_updateQuestion (storeInvFwd_updateQuestion hs procSafe)
          (updSafe_of_status_eq rfl (fun _ => ⟨rfl, rfl⟩) (fun h => absurd h (by decide)))
      | exact storeInvFwd_exceptBranch
          (storeInvFwd_updateQuestion (storeInvFwd_updateQuestion hs procSafe)
            (updSafe_of_status_eq rfl (fun _ => ⟨rfl, rfl⟩) (fun h => absurd h (by decide))))

lemma storeInvFwd_ingestHandler {ev : IngestEvent} {st : QStore}
    {env : IngestEnv} (hs : StoreInvFwd st) :
    StoreInvFwd (ingestHandler ev st env).store := by
  unfold ingestHandler
  dsimp only
  repeat' split
  all_goals
    first
      | exact hs
      | exact storeInvFwd_putItem hs
          (invFwd_savedQuestionItem _ env.freshId _ env.now)

lemma storeInvFwd_notifyHandler {ev : SnsEventShape} {qst : QStore}
    {cst : ConnStore} {env : NotifyEnv} (hs : StoreInvFwd qst) :
    StoreInvFwd (notifyHandler ev qst cst env).qstore := by
  unfold notifyHandler
  dsimp only
  repeat' split
  all_goals
    first
      | exact hs
      | exact storeInvFwd_updateQuestion hs (updSafe_of_status_none rfl)

/-! ## Store lookup lemmas -/

lemma getItem_putItem_self (st : QStore) (k : String × String) (it : Item) :
    getItem (putItem st k it) k = some it := by
  induction st with
  | nil => simp [putItem, getItem]
  | cons hd tl ih =>
      obtain ⟨k', it'⟩ := hd
      by_cases hk : k' = k
      · simp [putItem, if_pos hk, getItem]
      · simp [putItem, if_neg hk, getItem, hk, ih]

lemma getItem_updateQuestion_self (st : QStore) (uid qid : String)
    (u : UpdateData) (ts : String) :
    getItem (updateQuestion st uid qid u ts) (buildKey uid qid) =
      some (applyUpdate ((getItem st (buildKey uid qid)).getD emptyItem)
        { u with updated_at := some ts }) := by
  unfold updateQuestion
  exact getItem_putItem_self _ _ _

lemma lookupConn_deleteConn (cst : ConnStore) (uid : String) :
    lookupConn (deleteConn cst uid) uid = none := by
  induction cst with
  | nil => rfl
  | cons hd tl ih =>
      obtain ⟨u, c⟩ := hd
      by_cases hu : u = uid
      · simpa [deleteConn, hu] using ih
      · simpa [deleteConn, hu, lookupConn] using ih

/-! ## The 2001-character question -/

/-- Two thousand letters, the stripped form of `bigQuestion`. -/
def aQuestion : String := String.mk (List.replicate 2000 'a')

/-- Two thousand letters followed by a trailing space: 2001 characters,
2000 after stripping. -/
def bigQuestion : String := String.mk (List.replicate 2000 'a' ++ [' '])

lemma isPyWs_a : isPyWs 'a' = false := by decide

lemma isPyWs_space : isPyWs ' ' = true := by decide

lemma dropWhile_isPyWs_replicate_a (n : Nat) (l : List Char) :
    List.dropWhile isPyWs (List.replicate (n + 1) 'a' ++ l) =
      List.replicate (n + 1) 'a' ++ l := by
  rw [List.replicate_succ, List.cons_append, List.dropWhile_cons, isPyWs_a]
  simp

lemma pyStrip_bigQuestion : pyStrip bigQuestion = aQuestion := by
  have h2000 : (2000 : Nat) = 1999 + 1 := by norm_num
  unfold bigQuestion aQuestion pyStrip
  refine congrArg String.mk ?_
  rw [show (String.mk (List.replicate 2000 'a' ++ [' '])).data =
        List.replicate 2000 'a' ++ [' '] from rfl]
  rw [h2000, dropWhile_isPyWs_replicate_a 1999 [' ']]
  rw [List.reverse_append, List.reverse_replicate]
  simp only [List.reverse_cons, List.reverse_nil, List.nil_append, List.singleton_append]
  rw [List.dropWhile_cons, isPyWs_space]
  simp only [if_true]
  have := dropWhile_isPyWs_replicate_a 1999 ([] : List Char)
  rw [List.append_nil] at this
  rw [this, List.reverse_replicate]

lemma bigQuestion_length : bigQuestion.length = 2001 := by
  show (List.replicate 2000 'a' ++ [' ']).length = 2001
  rw [List.length_append, List.length_replicate]
  rfl

lemma aQuestion_length : aQuestion.length = 2000 := by
  show (List.replicate 2000 'a').length = 2000
  rw [List.length_replicate]

lemma aQuestion_ne_empty : aQuestion ≠ "" := by
  intro h
  have h2 : (List.replicate 2000 'a') = ([] : List Char) := congrArg String.data h
  have h3 : (List.replicate 2000 'a').length = ([] : List Char).length :=
    congrArg List.length h2
  rw [List.length_replicate, List.length_nil] at h3
  exact absurd h3 (by norm_num)

lemma bigQuestion_ne_empty : bigQuestion ≠ "" := by
  intro h
  have h2 : (List.replicate 2000 'a' ++ [' ']) = ([] : List Char) := congrArg String.data h
  have h3 : (List.replicate 2000 'a' ++ [' ']).length = ([] : List Char).length :=
    congrArg List.length h2
  rw [List.length_append, List.length_replicate, List.length_nil] at h3
  exact absurd h3 (by norm_num)

lemma validate_bigQuestion :
    validateQuestionInput (.dict (some "u1") (some bigQuestion)) =
      .ok ⟨"u1", aQuestion⟩ := by
  have hstrip : pyStrip "u1" = "u1" := by decide
  simp only [validateQuestionInput]
  rw [if_neg (by decide : ¬(("u1" : String) = "" ∨ pyStrip "u1" = ""))]
  rw [if_neg ?hno]
  case hno =>
    rintro (h | h)
    · exact bigQuestion_ne_empty h
    · exact aQuestion_ne_empty (pyStrip_bigQuestion ▸ h)
  rw [if_neg ?hlen]
  case hlen =>
    rw [pyStrip_bigQuestion, aQuestion_length]
    omega
  rw [pyStrip_bigQuestion, hstrip]

/-! ## Concrete execution traces -/

/-- An ingest request for user `u1`. -/
def ingEvC : IngestEvent := .noBody (.dict (some "u1") (some "What is a CDB?"))

/-- Ingest environment generating question id `q1` at time `t0`. -/
def ingEnvC : IngestEnv := { freshId := "q1", now := "t0" }

/-- Store after ingesting the question: one pending entity. -/
def pendingStore : QStore := (ingestHandler ingEvC [] ingEnvC).store

/-- A process-event (bare form) referencing the ingested entity. -/
def procEvC : SnsEventShape := .bare { user_id := some "u1", question_id := some "q1" }

/-- A successful generation result with one source. -/
def ragC : RagResult :=
  { answer := "A CDB is a bank deposit certificate."
    sources := [⟨"s3://docs/cdb.md", "CDB basics"⟩]
    inference_profile_id := "us.amazon.nova-pro-v1:0"
    found_relevant_docs := true }

/-- Process environment in which generation succeeds. -/
def procEnvOkC : ProcEnv := { now := "t1", gen := .ok ragC }

/-- Store after a successful process invocation: the entity is completed
with answer and sources. -/
def completedStore : QStore := (processHandler procEvC pendingStore procEnvOkC).store

/-- Process environment in which the generation call raises. -/
def procEnvFailC : ProcEnv := { now := "t2", gen := .error "Bedrock timeout" }

/-- Store after a redelivered process-event whose generation call raises,
applied to the already-completed entity. -/
def failedStore : QStore := (processHandler procEvC completedStore procEnvFailC).store

/-! ## Claims -/

/-- C1, counterexample.  The store holding the completed entity (reached by
Ingest followed by a successful Process invocation) satisfies the
biconditional invariant, but a further Process invocation whose main flow
fails leaves the stored answer in place next to `status = error`: the
invariant is NOT preserved by that handler invocation.  The final two
conjuncts exhibit the violation: the entity has status `error` while
`answer` is still present. -/
theorem c1_counterexample :
    storeInvIffB completedStore = true ∧
    storeInvIffB failedStore = false ∧
    ((getItem failedStore (buildKey "u1" "q1")).bind (fun it => it.status)) =
      some STATUS_ERROR ∧
    (((getItem failedStore (buildKey "u1" "q1")).bind (fun it => it.answer)).isSome
      = true) := by
  decide

/-- C1, amended: the forward half of the invariant — `status = completed`
implies `answer` and `sources` are present, and `status = error` implies
`error_message` is present — IS preserved by every handler invocation
(Ingest create, every Process flow including its error branch, and the
Notify metadata update).  The biconditional form fails because a Process
outcome update never removes the attributes written by an earlier,
different outcome. -/
theorem c1_forward_invariant_preserved (st : QStore) (h : StoreInvFwd st) :
    (∀ (ev : IngestEvent) (env : IngestEnv),
      StoreInvFwd (ingestHandler ev st env).store) ∧
    (∀ (ev : SnsEventShape) (env : ProcEnv),
      StoreInvFwd (processHandler ev st env).store) ∧
    (∀ (ev : SnsEventShape) (cst : ConnStore) (env : NotifyEnv),
      StoreInvFwd (notifyHandler ev st cst env).qstore) :=
  ⟨fun _ _ => storeInvFwd_ingestHandler h,
   fun _ _ => storeInvFwd_processHandler h,
   fun _ _ _ => storeInvFwd_notifyHandler h⟩

/-- C1, witness: the preservation theorem applied to the empty store and a
concrete ingest invocation. -/
theorem c1_witness : StoreInvFwd pendingStore :=
  (c1_forward_invariant_preserved []
    (fun p hp => absurd hp (List.not_mem_nil p))).1 ingEvC ingEnvC

/-- C2, counterexample.  A generation failure whose exception text is the
empty string: the Process invocation stores `error_message = ""`, which is
present but NOT non-empty, publishes the error notify-event and returns a
structured error — so the claim's "non-empty error_message" fails. -/
theorem c2_counterexample :
    (processHandler procEvC pendingStore { now := "t2", gen := .error "" }).resp =
      .failure "" ∧
    (processHandler procEvC pendingStore { now := "t2", gen := .error "" }).notify =
      [⟨"u1", "q1", STATUS_ERROR⟩] ∧
    ((getItem (processHandler procEvC pendingStore
        { now := "t2", gen := .error "" }).store (buildKey "u1" "q1")).bind
      (fun it => it.error_message)) = some "" ∧
    ("" : String).length = 0 := by
  decide

/-- C2, amended: for every process-event that reaches the generation call
(well-formed identifiers, stored entity with question text, processing
update succeeded) and whose Generation Adapter call raises with message
`msg`, and whose best-effort error write and publish succeed, a single
Process invocation stores `status = error` with `error_message` equal to
the failure's message (hence non-empty exactly when that message is),
publishes exactly one notify-event with status `error`, and returns a
structured non-success result. -/
theorem c2_amended (ev : SnsEventShape) (st : QStore) (env : ProcEnv)
    (uid qid : String) (item : Item) (msg : String)
    (herr : (parseSnsProcess ev).err = none)
    (hu : (parseSnsProcess ev).user_id = some uid) (hu2 : uid ≠ "")
    (hq : (parseSnsProcess ev).question_id = some qid) (hq2 : qid ≠ "")
    (hget : env.getFail = none)
    (hitem : getItem st (buildKey uid qid) = some item)
    (htext : item.question.getD "" ≠ "")
    (hupd : env.updProcFail = none)
    (hgen : env.gen = .error msg)
    (heupd : env.errUpdFail = none)
    (hepub : env.errPubFail = none) :
    (processHandler ev st env).resp = .failure msg ∧
    (processHandler ev st env).notify = [⟨uid, qid, STATUS_ERROR⟩] ∧
    ((getItem (processHandler ev st env).store (buildKey uid qid)).bind
      (fun it => it.status)) = some STATUS_ERROR ∧
    ((getItem (processHandler ev st env).store (buildKey uid qid)).bind
      (fun it => it.error_message)) = some msg := by
  have hcond : ¬(uid = "" ∨ qid = "") := by
    rintro (h | h)
    · exact hu2 h
    · exact hq2 h
  simp only [processHandler, herr, hu, hq, if_neg hcond, hget, hitem,
    if_neg htext, hupd, hgen, processExceptBranch, heupd, hepub]
  refine ⟨?_, ?_, ?_, ?_⟩ <;>
    first
      | trivial
      | (rw [getItem_updateQuestion_self]; rfl)

/-- Process environment of the C2 witness run. -/
def c2EnvW : ProcEnv := { now := "t9", gen := .error "Bedrock unavailable" }

/-- C2, witness: the amended theorem applied to the concrete pending-store
trace with failure message `Bedrock unavailable`. -/
theorem c2_witness :
    (processHandler procEvC pendingStore c2EnvW).resp =
      .failure "Bedrock unavailable" ∧
    (processHandler procEvC pendingStore c2EnvW).notify =
      [⟨"u1", "q1", STATUS_ERROR⟩] ∧
    ((getItem (processHandler procEvC pendingStore c2EnvW).store
      (buildKey "u1" "q1")).bind (fun it => it.status)) = some STATUS_ERROR ∧
    ((getItem (processHandler procEvC pendingStore c2EnvW).store
      (buildKey "u1" "q1")).bind (fun it => it.error_message)) =
      some "Bedrock unavailable" :=
  c2_amended procEvC pendingStore c2EnvW "u1" "q1"
    (savedQuestionItem "u1" "q1" "What is a CDB?" "t0") "Bedrock unavailable"
    rfl rfl (by decide) rfl (by decide) rfl
    (by decide) (by decide) rfl rfl rfl rfl

/-- C5: a process-event referencing a pair with no stored entity (and whose
lookup call itself succeeds) yields a structured error, an unchanged
store, and no published notify-event. -/
theorem c5_not_found_no_side_effects (ev : SnsEventShape) (st : QStore)
    (env : ProcEnv) (uid qid : String)
    (herr : (parseSnsProcess ev).err = none)
    (hu : (parseSnsProcess ev).user_id = some uid) (hu2 : uid ≠ "")
    (hq : (parseSnsProcess ev).question_id = some qid) (hq2 : qid ≠ "")
    (hget : env.getFail = none)
    (hnone : getItem st (buildKey uid qid) = none) :
    (processHandler ev st env).resp =
      .failure ("Question not found: user_id=" ++ uid ++ ", question_id=" ++ qid) ∧
    (processHandler ev st env).store = st ∧
    (processHandler ev st env).notify = [] := by
  have hcond : ¬(uid = "" ∨ qid = "") := by
    rintro (h | h)
    · exact hu2 h
    · exact hq2 h
  simp only [processHandler, herr, hu, hq, if_neg hcond, hget, hnone]
  exact ⟨trivial, trivial, trivial⟩

/-- Process environment of the C5 witness run. -/
def c5EnvW : ProcEnv := { now := "t1", gen := .error "x" }

/-- C5, witness: the theorem applied to the empty store. -/
theorem c5_witness :
    (processHandler procEvC [] c5EnvW).resp =
      .failure ("Question not found: user_id=" ++ "u1" ++ ", question_id=" ++ "q1") ∧
    (processHandler procEvC [] c5EnvW).store = [] ∧
    (processHandler procEvC [] c5EnvW).notify = [] :=
  c5_not_found_no_side_effects procEvC [] c5EnvW "u1" "q1"
    rfl rfl (by decide) rfl (by decide) rfl rfl

lemma strip_cond (u : String) : (u = "" ∨ pyStrip u = "") ↔ pyStrip u = "" := by
  constructor
  · rintro (h | h)
    · rw [h]
      rfl
    · exact h
  · exact Or.inr

lemma isOk_error {ε α : Type} (e : ε) : (Except.error e : Except ε α).isOk = false := rfl

lemma isOk_ok {ε α : Type} (a : α) : (Except.ok a : Except ε α).isOk = true := rfl

lemma validate_none_eq (q? : Option String) :
    validateQuestionInput (.dict none q?) = .error "Field required: user_id" := rfl

lemma validate_some_none_eq (u : String) :
    validateQuestionInput (.dict (some u) none) =
      if u = "" ∨ pyStrip u = "" then .error "Cannot be an empty string"
      else .error "Field required: question" := rfl

lemma validate_some_some_eq (u q : String) :
    validateQuestionInput (.dict (some u) (some q)) =
      if u = "" ∨ pyStrip u = "" then .error "Cannot be an empty string"
      else if q = "" ∨ pyStrip q = "" then .error "Cannot be an empty string"
      else if 2000 < (pyStrip q).length then
        .error "The question must be at most 2000 characters"
      else .ok ⟨pyStrip u, pyStrip q⟩ := rfl

lemma validate_ok_iff (u? q? : Option String) :
    (validateQuestionInput (.dict u? q?)).isOk = true ↔
      ∃ u q, BodyShape.dict u? q? = .dict (some u) (some q) ∧ pyStrip u ≠ "" ∧
        pyStrip q ≠ "" ∧ (pyStrip q).length ≤ 2000 := by
  cases u? with
  | none =>
      rw [validate_none_eq, isOk_error]
      constructor
      · intro h
        cases h
      · rintro ⟨u, q, h, -⟩
        simp at h
  | some u =>
      by_cases hu : u = "" ∨ pyStrip u = ""
      · have hu' : pyStrip u = "" := (strip_cond u).mp hu
        constructor
        · intro h
          cases q? with
          | none =>
              rw [validate_some_none_eq, if_pos hu, isOk_error] at h
              cases h
          | some q =>
              rw [validate_some_some_eq, if_pos hu, isOk_error] at h
              cases h
        · rintro ⟨u2, q, h, h2, -⟩
          simp only [BodyShape.dict.injEq, Option.some.injEq] at h
          rw [← h.1] at h2
          exact absurd hu' h2
      · cases q? with
        | none =>
            rw [validate_some_none_eq, if_neg hu, isOk_error]
            constructor
            · intro h
              cases h
            · rintro ⟨u2, q, h, -⟩
              simp at h
        | some q =>
            by_cases hq : q = "" ∨ pyStrip q = ""
            · have hq' : pyStrip q = "" := (strip_cond q).mp hq
              rw [validate_some_some_eq, if_neg hu, if_pos hq, isOk_error]
              constructor
              · intro h
                cases h
              · rintro ⟨u2, q2, h, -, h3, -⟩
                simp only [BodyShape.dict.injEq, Option.some.injEq] at h
                rw [← h.2] at h3
                exact absurd hq' h3
            · by_cases hlen : 2000 < (pyStrip q).length
              · rw [validate_some_some_eq, if_neg hu, if_neg hq, if_pos hlen,
                  isOk_error]
                constructor
                · intro h
                  cases h
                · rintro ⟨u2, q2, h, -, -, h4⟩
                  simp only [BodyShape.dict.injEq, Option.some.injEq] at h
                  rw [← h.2] at h4
                  exact absurd h4 (by omega)
              · rw [validate_some_some_eq, if_neg hu, if_neg hq, if_neg hlen,
                  isOk_ok]
                constructor
                · intro _
                  exact ⟨u, q, rfl, fun h => hu (Or.inr h), fun h => hq (Or.inr h),
                    by omega⟩
                · intro _
                  rfl

lemma validate_reject_long (u? : Option String) (q : String)
    (hlen : 2000 < (pyStrip q).length) :
    ∃ e, validateQuestionInput (.dict u? (some q)) = .error e := by
  have hqne : ¬(q = "" ∨ pyStrip q = "") := by
    intro h
    have h2 : pyStrip q = "" := (strip_cond q).mp h
    rw [h2] at hlen
    rw [show ("" : String).length = 0 from rfl] at hlen
    omega
  cases u? with
  | none => exact ⟨"Field required: user_id", rfl⟩
  | some u =>
      by_cases hu : u = "" ∨ pyStrip u = ""
      · refine ⟨"Cannot be an empty string", ?_⟩
        rw [validate_some_some_eq, if_pos hu]
      · refine ⟨"The question must be at most 2000 characters", ?_⟩
        rw [validate_some_some_eq, if_neg hu, if_neg hqne, if_pos hlen]

/-- C3, counterexample.  A question of 2001 characters (2000 letters and a
trailing space) has length strictly greater than 2000, yet validation
succeeds: the `not_empty` validator strips the value before `max_length`
measures it, so the claimed raw-length bound does not hold. -/
theorem c3_counterexample :
    bigQuestion.length = 2001 ∧
    (validateQuestionInput (.dict (some "u1") (some bigQuestion))).isOk = true := by
  refine ⟨bigQuestion_length, ?_⟩
  rw [validate_bigQuestion]
  rfl

/-- C3, amended: validation succeeds iff `user_id` and `question` are both
present and non-empty after trimming and the TRIMMED question's length is
at most 2000; any input whose trimmed question exceeds 2000 characters is
rejected with a structured validation error value (never an exception). -/
theorem c3_amended (body : BodyShape) :
    ((validateQuestionInput body).isOk = true ↔
      ∃ u q, body = BodyShape.dict (some u) (some q) ∧ pyStrip u ≠ "" ∧
        pyStrip q ≠ "" ∧ (pyStrip q).length ≤ 2000) ∧
    (∀ (u? : Option String) (q : String), body = BodyShape.dict u? (some q) →
      2000 < (pyStrip q).length →
      ∃ e, validateQuestionInput body = .error e) := by
  constructor
  · cases body with
    | nonDict =>
        rw [show validateQuestionInput .nonDict =
            .error "Input should be a valid dictionary" from rfl, isOk_error]
        constructor
        · intro h
          cases h
        · rintro ⟨u, q, h, -⟩
          simp at h
    | dict u? q? => exact validate_ok_iff u? q?
  · intro u? q hbody hlen
    rw [hbody]
    exact validate_reject_long u? q hlen

/-- C3, witness: the amended equivalence applied to a small valid body. -/
theorem c3_witness :
    (validateQuestionInput (.dict (some "u1") (some "What is a CDB?"))).isOk = true :=
  ((c3_amended (.dict (some "u1") (some "What is a CDB?"))).1).mpr
    ⟨"u1", "What is a CDB?", rfl, by decide, by decide, by decide⟩

/-- The ingest event carrying the 2001-character question. -/
def c4Ev : IngestEvent := .withBody (.ok (.dict (some "u1") (some bigQuestion)))

/-- Ingest environment of the C4 counterexample run. -/
def c4Env : IngestEnv := { freshId := "q1", now := "t0" }

/-- C4, counterexample.  An ingest request whose question has 2001
characters (exceeding 2000) is NOT rejected: the handler returns status
code 200 and publishes a process-event, because validation bounds the
trimmed question only. -/
theorem c4_counterexample :
    bigQuestion.length = 2001 ∧
    (ingestHandler c4Ev [] c4Env).resp.statusCode = 200 ∧
    (ingestHandler c4Ev [] c4Env).events = [⟨"u1", "q1", STATUS_PENDING⟩] := by
  refine ⟨bigQuestion_length, ?_, ?_⟩ <;>
    · simp only [ingestHandler, c4Ev, c4Env, parseApiEvent, validate_bigQuestion]
      try rfl

/-- C4, amended: for every ingest request whose decoded body is an object
missing `user_id` or missing `question`, or whose TRIMMED question exceeds
2000 characters, the handler returns a 400 response, performs no store
write, and publishes no process-event. -/
theorem c4_amended (ev : IngestEvent) (st : QStore) (env : IngestEnv)
    (u? q? : Option String)
    (hb : parseApiEvent ev = .ok (.dict u? q?))
    (hbad : u? = none ∨ q? = none ∨ ∃ q, q? = some q ∧ 2000 < (pyStrip q).length) :
    (ingestHandler ev st env).resp.statusCode = 400 ∧
    (ingestHandler ev st env).store = st ∧
    (ingestHandler ev st env).events = [] := by
  have hval : ∃ e, validateQuestionInput (.dict u? q?) = .error e := by
    rcases hbad with h | h | ⟨q, hq, hlen⟩
    · rw [h]
      exact ⟨"Field required: user_id", rfl⟩
    · rw [h]
      cases u? with
      | none => exact ⟨"Field required: user_id", rfl⟩
      | some u =>
          by_cases hu : u = "" ∨ pyStrip u = ""
          · refine ⟨"Cannot be an empty string", ?_⟩
            rw [validate_some_none_eq, if_pos hu]
          · refine ⟨"Field required: question", ?_⟩
            rw [validate_some_none_eq, if_neg hu]
    · rw [hq]
      exact validate_reject_long u? q hlen
  obtain ⟨e, he⟩ := hval
  simp only [ingestHandler, hb, he]
  refine ⟨?_, ?_, ?_⟩ <;> trivial

/-- C4, witness: the amended theorem applied to a body missing `user_id`. -/
theorem c4_witness :
    (ingestHandler (.noBody (.dict none (some "hi"))) [] c4Env).resp.statusCode = 400 ∧
    (ingestHandler (.noBody (.dict none (some "hi"))) [] c4Env).store = [] ∧
    (ingestHandler (.noBody (.dict none (some "hi"))) [] c4Env).events = [] :=
  c4_amended (.noBody (.dict none (some "hi"))) [] c4Env none (some "hi")
    rfl (Or.inl rfl)

/-- A WebSocket event with no `requestContext` at all. -/
def wsNoCtxEv : WsEvent := {}

/-- C6, counterexample.  The Connection Registry handler reads
`event["requestContext"]["connectionId"]` BEFORE its `try` block: on an
event without `requestContext` the `KeyError` escapes the handler instead
of producing a structured response, so not every handler boundary is a
catch-all. -/
theorem c6_counterexample :
    wsHandler wsNoCtxEv [] {} = .error "KeyError: requestContext" := rfl

/-- C6, amended: Ingest, Process and Notify return a structured response
for every event and every external-call outcome (their whole bodies sit
inside the boundary catch-all); the Connection Registry handler is total
only for events whose `requestContext` carries `connectionId` and
`routeKey` — for those it returns a structured response for every route
and every table-operation outcome. -/
theorem c6_amended :
    (∀ (ev : WsEvent) (cst : ConnStore) (env : WsEnv) (rc : WsRequestContext)
      (cid rk : String), ev.requestContext = some rc → rc.connectionId = some cid →
      rc.routeKey = some rk → (wsHandler ev cst env).isOk = true) ∧
    (∀ (ev : IngestEvent) (st : QStore) (env : IngestEnv),
      (ingestHandler ev st env).resp.statusCode = 200 ∨
      (ingestHandler ev st env).resp.statusCode = 400 ∨
      (ingestHandler ev st env).resp.statusCode = 500) ∧
    (∀ (ev : SnsEventShape) (st : QStore) (env : ProcEnv),
      (∃ d, (processHandler ev st env).resp = .success d) ∨
      (∃ e, (processHandler ev st env).resp = .failure e)) ∧
    (∀ (ev : SnsEventShape) (qst : QStore) (cst : ConnStore) (env : NotifyEnv),
      (∃ d, (notifyHandler ev qst cst env).resp = .success d) ∨
      (∃ e, (notifyHandler ev qst cst env).resp = .failure e)) := by
  refine ⟨?_, ?_, ?_, ?_⟩
  · intro ev cst env rc cid rk h1 h2 h3
    simp only [wsHandler, h1, h2, h3]
    rfl
  · intro ev st env
    unfold ingestHandler
    repeat' split
    all_goals
      first
        | exact .inl rfl
        | exact .inr (.inl rfl)
        | exact .inr (.inr rfl)
  · intro ev st env
    cases h : (processHandler ev st env).resp with
    | success d => exact .inl ⟨d, rfl⟩
    | failure e => exact .inr ⟨e, rfl⟩
  · intro ev qst cst env
    cases h : (notifyHandler ev qst cst env).resp with
    | success d => exact .inl ⟨d, rfl⟩
    | failure e => exact .inr ⟨e, rfl⟩

/-- A well-formed `$connect` WebSocket event. -/
def wsOkEv : WsEvent :=
  { requestContext := some { connectionId := some "c1", routeKey := some "$connect" }
    queryUserId := some "u1" }

/-- C6, witness: the amended totality applied to a concrete connect
event. -/
theorem c6_witness : (wsHandler wsOkEv [] {}).isOk = true :=
  c6_amended.1 wsOkEv [] {}
    { connectionId := some "c1", routeKey := some "$connect" }
    "c1" "$connect" rfl rfl rfl

/-- C7: a notify-event for a user with no live connection record yields a
success response with `notification_sent = false`, no push attempt, and
leaves both the questions table and the connections table unchanged. -/
theorem c7_no_connection_no_push (ev : SnsEventShape) (qst : QStore)
    (cst : ConnStore) (env : NotifyEnv) (v : ValidatedSnsEvent)
    (hv : parseSnsNotify ev = .ok v)
    (hgq : env.getQFail = none)
    (hcg : env.connGetFail = none)
    (hlc : lookupConn cst v.user_id = none) :
    (notifyHandler ev qst cst env).resp =
      .success ⟨v.user_id, v.question_id, v.status.getD STATUS_PENDING, false, false⟩ ∧
    (notifyHandler ev qst cst env).qstore = qst ∧
    (notifyHandler ev qst cst env).cstore = cst ∧
    (notifyHandler ev qst cst env).pushes = [] := by
  simp only [notifyHandler, hv, hgq, publishNotificationToWebsocket, hcg, hlc]
  refine ⟨?_, ?_, ?_, ?_⟩ <;> trivial

/-- A notify-event for user `u1`, question `q1`, status completed. -/
def notifyEvC : SnsEventShape :=
  .bare { user_id := some "u1", question_id := some "q1", status := some "completed" }

/-- Notify environment with no failures. -/
def notifyEnvC : NotifyEnv := { now := "t3" }

/-- C7, witness: the theorem applied with an empty connections table. -/
theorem c7_witness :
    (notifyHandler notifyEvC completedStore [] notifyEnvC).resp =
      .success ⟨"u1", "q1", "completed", false, false⟩ ∧
    (notifyHandler notifyEvC completedStore [] notifyEnvC).qstore = completedStore ∧
    (notifyHandler notifyEvC completedStore [] notifyEnvC).cstore = [] ∧
    (notifyHandler notifyEvC completedStore [] notifyEnvC).pushes = [] :=
  c7_no_connection_no_push notifyEvC completedStore [] notifyEnvC
    ⟨"u1", "q1", some "completed"⟩ rfl rfl rfl rfl

lemma publishExceptBranch_fst (e uid : String) (cst : ConnStore)
    (pushes : List Push) (env : NotifyEnv) :
    (publishExceptBranch e uid cst pushes env).1 = false := by
  unfold publishExceptBranch
  split
  · split <;> rfl
  · rfl

/-- C8: a notify-event whose push to the looked-up connection fails with a
gone indication deletes that user's connection record (the record is no
longer found afterwards) and still returns a success response with
`notification_sent = false`; the questions table is untouched. -/
theorem c8_gone_push_deletes_connection (ev : SnsEventShape) (qst : QStore)
    (cst : ConnStore) (env : NotifyEnv) (v : ValidatedSnsEvent) (cid m : String)
    (payload : Payload)
    (hv : parseSnsNotify ev = .ok v)
    (hgq : env.getQFail = none)
    (hcg : env.connGetFail = none)
    (hlc : lookupConn cst v.user_id = some cid)
    (hbp : buildPayload v.question_id (v.status.getD STATUS_PENDING)
      (getItem qst (buildKey v.user_id v.question_id)) = .ok payload)
    (hpf : env.pushFail = some m)
    (hgone : containsGone m = true)
    (hdel : env.deleteFail = none) :
    (notifyHandler ev qst cst env).resp =
      .success ⟨v.user_id, v.question_id, v.status.getD STATUS_PENDING, false, false⟩ ∧
    (notifyHandler ev qst cst env).cstore = deleteConn cst v.user_id ∧
    lookupConn (notifyHandler ev qst cst env).cstore v.user_id = none ∧
    (notifyHandler ev qst cst env).qstore = qst := by
  simp only [notifyHandler, hv, hgq, publishNotificationToWebsocket, hcg, hlc, hbp,
    hpf, publishExceptBranch, hgone, if_true, hdel]
  refine ⟨?_, ?_, ?_, ?_⟩ <;>
    first
      | trivial
      | exact lookupConn_deleteConn cst v.user_id

/-- Connections table with a live connection for `u1`. -/
def connStoreC : ConnStore := [("u1", "c1")]

/-- Notify environment whose push raises a gone indication. -/
def notifyEnvGone : NotifyEnv :=
  { now := "t3", pushFail := some "GoneException: Connection is gone" }

/-- C8, witness: the theorem applied to the completed-store trace with a
live but stale connection. -/
theorem c8_witness :
    (notifyHandler notifyEvC completedStore connStoreC notifyEnvGone).resp =
      .success ⟨"u1", "q1", "completed", false, false⟩ ∧
    (notifyHandler notifyEvC completedStore connStoreC notifyEnvGone).cstore =
      deleteConn connStoreC "u1" ∧
    lookupConn (notifyHandler notifyEvC completedStore connStoreC
      notifyEnvGone).cstore "u1" = none ∧
    (notifyHandler notifyEvC completedStore connStoreC notifyEnvGone).qstore =
      completedStore :=
  c8_gone_push_deletes_connection notifyEvC completedStore connStoreC notifyEnvGone
    ⟨"u1", "q1", some "completed"⟩ "c1" "GoneException: Connection is gone"
    { ptype := "question_update", question_id := "q1", status := "completed"
      answer := some "A CDB is a bank deposit certificate."
      sources := some ["s3://docs/cdb.md"]
      question := some "What is a CDB?" }
    rfl rfl rfl rfl rfl rfl (by decide) rfl

/-- C9: the Generation Adapter result has `found_relevant_docs = true` iff
at least one source was extracted, and the extraction accepts both the
single-object reference shape and the list reference shape (a non-empty
URI in either shape yields a source). -/
theorem c9_found_relevant_docs_iff (kb : Option String) (profile : String)
    (account : Option String) (region : String) (call : Except String RawResponse)
    (r : RagResult)
    (h : retrieveAndGenerate kb profile account region call = .ok r) :
    (r.found_relevant_docs = true ↔ r.sources ≠ []) ∧
    (∀ uri text, uri ≠ "" → extractFromCite (.dictShape uri text) = [⟨uri, text⟩]) ∧
    (∀ uri text, uri ≠ "" →
      extractFromCite (.listShape [some (uri, text)]) = [⟨uri, text⟩]) := by
  refine ⟨?_, ?_, ?_⟩
  · unfold retrieveAndGenerate at h
    rcases kb with _ | kbv
    · exact Except.noConfusion h
    · dsimp only at h
      by_cases hkb : kbv = ""
      · rw [if_pos hkb] at h
        exact Except.noConfusion h
      · rw [if_neg hkb] at h
        cases harn : getInferenceProfileArn profile account region with
        | error e =>
            rw [harn] at h
            exact Except.noConfusion h
        | ok arn =>
            rw [harn] at h
            cases call with
            | error e => exact Except.noConfusion h
            | ok resp =>
                dsimp only at h
                cases h
                simp only [decide_eq_true_eq]
                exact ⟨fun hp => List.ne_nil_of_length_pos hp,
                  fun hn => List.length_pos.mpr hn⟩
  · intro uri text hne
    simp [extractFromCite, hne]
  · intro uri text hne
    simp [extractFromCite, hne]

/-- A raw generation response with one single-object citation. -/
def rawRespC : RawResponse :=
  { outputText := "The answer.", citations := [.dictShape "s3://docs/a.md" "excerpt"] }

/-- The parsed result of `rawRespC`. -/
def ragResultC : RagResult :=
  { answer := "The answer.", sources := [⟨"s3://docs/a.md", "excerpt"⟩],
    inference_profile_id := "arn:aws:x", found_relevant_docs := true }

/-- C9, witness: the equivalence applied to a concrete parsed response. -/
theorem c9_witness :
    (ragResultC.found_relevant_docs = true ↔ ragResultC.sources ≠ []) ∧
    (∀ uri text, uri ≠ "" → extractFromCite (.dictShape uri text) = [⟨uri, text⟩]) ∧
    (∀ uri text, uri ≠ "" →
      extractFromCite (.listShape [some (uri, text)]) = [⟨uri, text⟩]) :=
  c9_found_relevant_docs_iff (some "kb1") "arn:aws:x" none "sa-east-1"
    (.ok rawRespC) ragResultC rfl

/-- C10: the Notify push helper is boolean-valued for every input, and in
the edge case of an error-status notification whose entity lookup returned
no data it returns `false` (the internal exception is swallowed by the
helper's own catch-all). -/
theorem c10_publish_total (uid qid status : String) (qdata : Option Item)
    (cst : ConnStore) (env : NotifyEnv) :
    ((publishNotificationToWebsocket uid qid status qdata cst env).1 = true ∨
     (publishNotificationToWebsocket uid qid status qdata cst env).1 = false) ∧
    (status = STATUS_ERROR → qdata = none →
      (publishNotificationToWebsocket uid qid status qdata cst env).1 = false) := by
  constructor
  · cases (publishNotificationToWebsocket uid qid status qdata cst env).1
    · exact .inr rfl
    · exact .inl rfl
  · intro hs hq
    subst hs
    subst hq
    unfold publishNotificationToWebsocket
    cases hcg : env.connGetFail with
    | some e =>
        exact publishExceptBranch_fst e uid cst [] env
    | none =>
        cases hlc : lookupConn cst uid with
        | none => rfl
        | some cid =>
            have hbp : buildPayload qid STATUS_ERROR none =
                .error "AttributeError: NoneType object has no attribute get" := rfl
            rw [hbp]
            exact publishExceptBranch_fst _ uid cst [] env

/-- C10, witness: the helper applied to the error-status, absent-entity
case with a live connection. -/
theorem c10_witness :
    (publishNotificationToWebsocket "u1" "q1" STATUS_ERROR none connStoreC
      notifyEnvC).1 = false :=
  (c10_publish_total "u1" "q1" STATUS_ERROR none connStoreC notifyEnvC).2 rfl rfl

end Toro
